import Mathlib

/-!
# net-stat : verification of the state-update and view-composition core

Shallow embedding of the `net-stat` terminal dashboard (Rust sources
`src/main.rs`, `src/app.rs`, `src/networks.rs`).  The OS metrics handle
(`sysinfo::System`) is modelled as the list of interfaces it currently
reports plus the stream of reports that future `refresh_networks` calls
will reveal; the `HashMap<String, Vec<u64>>` history store is modelled as
an association list (Rust's hash map has no specified iteration order, so
the list order stands for one arbitrary iteration order).  Rendering is
modelled as the list of rows the view composer produces, with the panics
of the Rust code (`unwrap` on a failed lookup, division by zero on an
empty widget list) surfaced as `Except` errors.
-/

namespace NetStat

/-- One entry of `sysinfo`'s network map: the counters the OS reports for
one interface (`transmitted()`, `received()`, `total_transmitted()`,
`total_received()`, `mac_address()`). -/
structure NetworkData where
  transmitted : Nat
  received : Nat
  total_transmitted : Nat
  total_received : Nat
  mac_address : String
deriving DecidableEq, Repr

/-- The OS metrics handle (`sysinfo::System`): `current` is what
`networks()` enumerates now, `upcoming` the reports that successive
`refresh_networks` calls will reveal (an exhausted stream leaves the
report unchanged, i.e. the OS keeps reporting the same interfaces). -/
structure System where
  current : List (String × NetworkData)
  upcoming : List (List (String × NetworkData))
deriving DecidableEq, Repr

/-- `sys.refresh_networks()`: advance to the next OS report. -/
def System.refresh_networks (s : System) : System :=
  match s.upcoming with
  | [] => s
  | r :: rest => ⟨r, rest⟩

/-- `InterfaceData` (src/networks.rs lines 9-16).  The source's `rec`
field is spelled `recd` here (`rec` is reserved for the recursor). -/
structure InterfaceData where
  name : String
  sent_total : Nat
  rec_total : Nat
  sent : Nat
  recd : Nat
  mac : String
deriving DecidableEq, Repr

/-- `InterfaceData::from` (src/networks.rs lines 18-29). -/
def InterfaceData.from (name : String) (data : NetworkData) : InterfaceData :=
  { name := name
    sent_total := data.total_transmitted
    rec_total := data.total_received
    sent := data.transmitted
    recd := data.received
    mac := data.mac_address }

/-- History store: model of `HashMap<String, Vec<u64>>` as an association
list; the list order stands for the map's (unspecified) iteration order. -/
abbrev HistMap := List (String × List Nat)

/-- `HashMap::get` on the model: first entry with the given key. -/
def mapLookup (k : String) : HistMap → Option (List Nat)
  | [] => none
  | (k', l) :: rest => if k' = k then some l else mapLookup k rest

/-- `graphs.entry(k).and_modify(|l| l.push(v)).or_insert(vec![v])`
(src/networks.rs lines 60-65): push onto the existing entry, or create a
singleton entry. -/
def entryPush (k : String) (v : Nat) : HistMap → HistMap
  | [] => [(k, [v])]
  | (k', l) :: rest =>
      if k' = k then (k', l ++ [v]) :: rest else (k', l) :: entryPush k v rest

/-- `map.insert(k, v)`: overwrite the entry if present, else add it. -/
def mapInsert (k : String) (v : List Nat) : HistMap → HistMap
  | [] => [(k, v)]
  | (k', l) :: rest =>
      if k' = k then (k, v) :: rest else (k', l) :: mapInsert k v rest

/-- `App` (src/app.rs lines 11-16). -/
structure App where
  should_quit : Bool
  sys : System
  net_interfaces : List InterfaceData
  net_interface_graphs : HistMap
deriving DecidableEq, Repr

/-- `Action` (src/main.rs lines 61-65).  `Action::None` is spelled
`Action.noop` here because `none` clashes with `Option.none`. -/
inductive Action where
  | tick
  | quit
  | noop
deriving DecidableEq, Repr

/-- `update_net_data` (src/networks.rs lines 48-56): full replacement of
the snapshot list from the handle's current report. -/
def update_net_data (app : App) : App :=
  { app with
      net_interfaces := app.sys.current.map (fun p => InterfaceData.from p.1 p.2) }

/-- `update_graph_data` (src/networks.rs lines 58-67): for each snapshot,
append its `sent` sample to that interface's history entry. -/
def update_graph_data (app : App) : App :=
  { app with
      net_interface_graphs :=
        app.net_interfaces.foldl (fun m i => entryPush i.name i.sent m)
          app.net_interface_graphs }

/-- `update` (src/app.rs lines 22-32 and src/main.rs lines 170-180). -/
def update (app : App) : Action → App
  | .quit => { app with should_quit := true }
  | .tick => update_graph_data (update_net_data { app with sys := app.sys.refresh_networks })
  | .noop => app

/-- Initial state built by `run` (src/main.rs lines 205-225): snapshot the
freshly refreshed interfaces and seed the history map with an empty vector
per discovered interface name. -/
def initApp (s : System) : App :=
  let interfaces := s.current.map (fun p => InterfaceData.from p.1 p.2)
  { should_quit := false
    sys := s
    net_interfaces := interfaces
    net_interface_graphs :=
      interfaces.foldl (fun m i => mapInsert i.name [] m) [] }

/-! ## Action resolver (src/main.rs lines 154-168) -/

/-- Key codes: a character key or any other key code. -/
inductive KeyCode where
  | char (c : Char)
  | other
deriving DecidableEq, Repr

/-- Terminal events: a key event or any other event kind. -/
inductive TermEvent where
  | key (code : KeyCode)
  | nonKey
deriving DecidableEq, Repr

/-- Outcome of `event::poll(tick_rate)` followed by `event::read()`:
either the 250 ms wait timed out, or an event arrived. -/
inductive PollResult where
  | timeout
  | event (e : TermEvent)
deriving DecidableEq, Repr

/-- `get_action` (src/main.rs lines 154-168) as a function of the poll
outcome. -/
def get_action : PollResult → Action
  | .timeout => .tick
  | .event (.key (.char c)) => if c = 'q' then .quit else .noop
  | .event (.key .other) => .noop
  | .event .nonKey => .noop

/-! ## View composer (src/networks.rs lines 31-92, src/app.rs lines 34-66) -/

/-- A rendered bordered text block: its lines. -/
structure Paragraph where
  lines : List String
deriving DecidableEq, Repr

/-- A rendered bordered sparkline: its title and data series. -/
structure Sparkline where
  title : String
  data : List Nat
deriving DecidableEq, Repr

/-- The Rust panics of the render path, surfaced as errors: the `unwrap`
of a failed history lookup in `to_network_stat_widgets`, and the division
by zero in `calc_network_status` when the widget list is empty. -/
inductive RenderError where
  | lookupFailed
  | divByZero
deriving DecidableEq, Repr

/-- `create_interface_paragraph` (src/networks.rs lines 69-85): the four
lines of one interface's text block. -/
def create_interface_paragraph (i : InterfaceData) : Paragraph :=
  { lines :=
      [ "Interface: " ++ i.name
      , "Sent/Recieved: " ++ toString i.sent ++ " / " ++ toString i.recd
      , "Total Send/Recieved " ++ toString i.sent_total ++ " / " ++ toString i.rec_total
      , "Mac Address " ++ i.mac ] }

/-- `create_interface_graph` (src/networks.rs lines 87-92). -/
def create_interface_graph (name : String) (val : List Nat) : Sparkline :=
  { title := name, data := val }

/-- The loop body of `to_network_stat_widgets`: walk the snapshot list in
order, pushing each paragraph and the sparkline obtained by looking the
snapshot's name up in the history map; a failed lookup is the `unwrap`
panic. -/
def buildWidgets (graphs : HistMap) :
    List InterfaceData → Except RenderError (List Paragraph × List Sparkline)
  | [] => .ok ([], [])
  | i :: rest =>
      match mapLookup i.name graphs with
      | none => .error .lookupFailed
      | some data =>
          match buildWidgets graphs rest with
          | .error e => .error e
          | .ok (ps, ss) =>
              .ok (create_interface_paragraph i :: ps,
                   create_interface_graph i.name data :: ss)

/-- `to_network_stat_widgets` (src/networks.rs lines 31-46). -/
def to_network_stat_widgets (app : App) :
    Except RenderError (List Paragraph × List Sparkline) :=
  buildWidgets app.net_interface_graphs app.net_interfaces

/-- One rendered row: its vertical height percentage, its text block and
the sparkline zipped with it. -/
structure RenderRow where
  percentage : Nat
  paragraph : Paragraph
  spark : Sparkline
deriving DecidableEq, Repr

/-- `calc_network_status` (src/app.rs lines 34-66): build the widget
lists, compute each row's percentage as `100 / network_data.len()` (a
division-by-zero panic when the list is empty), and zip the text blocks
with the sparklines into rows. -/
def calc_network_status (app : App) : Except RenderError (List RenderRow) :=
  match to_network_stat_widgets app with
  | .error e => .error e
  | .ok (network_data, network_spark) =>
      if network_data.length = 0 then .error .divByZero
      else
        let percentage := 100 / network_data.length
        .ok ((network_data.zip network_spark).map
          (fun p => { percentage := percentage, paragraph := p.1, spark := p.2 }))

/-! ## Concrete states used to instantiate the theorems -/

/-- A sample OS report entry. -/
def nd100 : NetworkData := ⟨100, 7, 1000, 2000, "aa:bb"⟩

/-- A second sample OS report entry for the same interface. -/
def nd150 : NetworkData := ⟨150, 8, 1150, 2200, "aa:bb"⟩

/-- State before two ticks whose refreshes report `eth0` with `sent = 100`
and then `sent = 150`. -/
def cApp1 : App := ⟨false, ⟨[], [[("eth0", nd100)], [("eth0", nd150)]]⟩, [], []⟩

/-- An OS handle reporting one interface `lo`, used to seed `initApp`. -/
def cSys2 : System := ⟨[("lo", nd100)], []⟩

/-- A sample snapshot for `eth0`. -/
def iface0 : InterfaceData := ⟨"eth0", 10, 20, 1, 2, "aa:aa"⟩

/-- A sample snapshot for `eth1`. -/
def iface1 : InterfaceData := ⟨"eth1", 30, 40, 3, 4, "bb:bb"⟩

/-- A state whose history map iterates in the order `["eth1", "eth0"]`,
the reverse of its snapshot list order `["eth0", "eth1"]`. -/
def cApp3 : App := ⟨false, ⟨[], []⟩, [iface0, iface1], [("eth1", [3]), ("eth0", [1])]⟩

/-- The rows `calc_network_status` produces on `cApp3`. -/
def cRows3 : List RenderRow :=
  [ ⟨50, create_interface_paragraph iface0, ⟨"eth0", [1]⟩⟩
  , ⟨50, create_interface_paragraph iface1, ⟨"eth1", [3]⟩⟩ ]

/-- A state with an `eth0`-only upcoming report and a stale `lo` history
entry. -/
def cApp5 : App := ⟨false, ⟨[("eth0", nd100)], []⟩, [], [("lo", [5])]⟩

/-- A state with no interfaces at all (the degenerate render input). -/
def cApp8 : App := ⟨false, ⟨[], []⟩, [], [("lo", [1])]⟩

/-- Sample snapshots for a three-interface state. -/
def ifaceA : InterfaceData := ⟨"a", 1, 1, 1, 1, "a:a"⟩

/-- Second of the three sample snapshots. -/
def ifaceB : InterfaceData := ⟨"b", 2, 2, 2, 2, "b:b"⟩

/-- Third of the three sample snapshots. -/
def ifaceC : InterfaceData := ⟨"c", 3, 3, 3, 3, "c:c"⟩

/-- A state with three interfaces, exercising the `100 / 3 = 33` row
percentage. -/
def cApp9 : App :=
  ⟨false, ⟨[], []⟩, [ifaceA, ifaceB, ifaceC], [("a", [1]), ("b", [2]), ("c", [3])]⟩

/-- The rows `calc_network_status` produces on `cApp9`. -/
def cRows9 : List RenderRow :=
  [ ⟨33, create_interface_paragraph ifaceA, ⟨"a", [1]⟩⟩
  , ⟨33, create_interface_paragraph ifaceB, ⟨"b", [2]⟩⟩
  , ⟨33, create_interface_paragraph ifaceC, ⟨"c", [3]⟩⟩ ]

/-- A two-interface state whose history has an entry for every snapshot
name. -/
def cApp10 : App :=
  ⟨false, ⟨[], []⟩, [iface0, iface1], [("eth0", [1]), ("eth1", [3])]⟩

/-! ## Lemmas about the history-map model -/

theorem mapLookup_entryPush_self (k : String) (v : Nat) (m : HistMap) :
    mapLookup k (entryPush k v m) = some ((mapLookup k m).getD [] ++ [v]) := by
  induction m with
  | nil => simp [entryPush, mapLookup]
  | cons p rest ih =>
      obtain ⟨k', l⟩ := p
      by_cases h : k' = k
      · simp [entryPush, mapLookup, h]
      · simp [entryPush, mapLookup, h, ih]

theorem mapLookup_entryPush_ne (k k' : String) (v : Nat) (m : HistMap) (h : k' ≠ k) :
    mapLookup k' (entryPush k v m) = mapLookup k' m := by
  induction m with
  | nil => simp [entryPush, mapLookup, Ne.symm h]
  | cons p rest ih =>
      obtain ⟨k'', l⟩ := p
      by_cases h2 : k'' = k
      · subst h2
        simp [entryPush, mapLookup, Ne.symm h]
      · simp [entryPush, mapLookup, h2, ih]

theorem isSome_mapLookup_entryPush (k k' : String) (v : Nat) (m : HistMap)
    (h : (mapLookup k' m).isSome = true) :
    (mapLookup k' (entryPush k v m)).isSome = true := by
  by_cases hk : k' = k
  · subst hk
    rw [mapLookup_entryPush_self]
    rfl
  · rw [mapLookup_entryPush_ne k k' v m hk]
    exact h

theorem isSome_mapLookup_pushAll (k : String) (l : List InterfaceData) (m : HistMap)
    (h : (mapLookup k m).isSome = true) :
    (mapLookup k (l.foldl (fun m i => entryPush i.name i.sent m) m)).isSome = true := by
  induction l generalizing m with
  | nil => exact h
  | cons i rest ih => exact ih _ (isSome_mapLookup_entryPush i.name k i.sent m h)

theorem mem_pushAll_isSome (l : List InterfaceData) (m : HistMap) :
    ∀ i ∈ l,
      (mapLookup i.name (l.foldl (fun m i => entryPush i.name i.sent m) m)).isSome = true := by
  induction l generalizing m with
  | nil => intro i h; cases h
  | cons j rest ih =>
      intro i hi
      rcases List.mem_cons.mp hi with h | h
      · subst h
        rw [List.foldl_cons]
        apply isSome_mapLookup_pushAll
        rw [mapLookup_entryPush_self]
        rfl
      · rw [List.foldl_cons]
        exact ih (entryPush j.name j.sent m) i h

theorem mapLookup_pushAll_not_mem (k : String) (l : List InterfaceData) (m : HistMap)
    (h : ∀ i ∈ l, i.name ≠ k) :
    mapLookup k (l.foldl (fun m i => entryPush i.name i.sent m) m) = mapLookup k m := by
  induction l generalizing m with
  | nil => rfl
  | cons j rest ih =>
      rw [List.foldl_cons, ih _ (fun i hi => h i (List.mem_cons_of_mem _ hi)),
        mapLookup_entryPush_ne _ _ _ _ (fun hk => h j (List.mem_cons_self _ _) hk.symm)]

theorem mapLookup_pushAll_nodup (l : List InterfaceData) (m : HistMap)
    (hnd : (l.map (fun i => i.name)).Nodup) :
    ∀ i ∈ l,
      mapLookup i.name (l.foldl (fun m i => entryPush i.name i.sent m) m)
        = some ((mapLookup i.name m).getD [] ++ [i.sent]) := by
  induction l generalizing m with
  | nil => intro i h; cases h
  | cons j rest ih =>
      rw [List.map_cons, List.nodup_cons] at hnd
      intro i hi
      rcases List.mem_cons.mp hi with h | h
      · subst h
        rw [List.foldl_cons,
          mapLookup_pushAll_not_mem _ _ _
            (fun i2 hi2 heq => hnd.1 (List.mem_map.mpr ⟨i2, hi2, heq⟩)),
          mapLookup_entryPush_self]
      · have hne : i.name ≠ j.name :=
          fun heq => hnd.1 (List.mem_map.mpr ⟨i, h, heq⟩)
        rw [List.foldl_cons, ih _ hnd.2 i h, mapLookup_entryPush_ne _ _ _ _ hne]

theorem mapLookup_mapInsert_self (k : String) (v : List Nat) (m : HistMap) :
    mapLookup k (mapInsert k v m) = some v := by
  induction m with
  | nil => simp [mapInsert, mapLookup]
  | cons p rest ih =>
      obtain ⟨k', l⟩ := p
      by_cases h : k' = k
      · simp [mapInsert, mapLookup, h]
      · simp [mapInsert, mapLookup, h, ih]

theorem mapLookup_mapInsert_ne (k k' : String) (v : List Nat) (m : HistMap) (h : k' ≠ k) :
    mapLookup k' (mapInsert k v m) = mapLookup k' m := by
  induction m with
  | nil => simp [mapInsert, mapLookup, Ne.symm h]
  | cons p rest ih =>
      obtain ⟨k'', l⟩ := p
      by_cases h2 : k'' = k
      · subst h2
        simp [mapInsert, mapLookup, Ne.symm h]
      · simp [mapInsert, mapLookup, h2, ih]

theorem isSome_mapLookup_seedAll (k : String) (l : List InterfaceData) (m : HistMap)
    (h : (mapLookup k m).isSome = true) :
    (mapLookup k (l.foldl (fun m i => mapInsert i.name [] m) m)).isSome = true := by
  induction l generalizing m with
  | nil => exact h
  | cons i rest ih =>
      rw [List.foldl_cons]
      apply ih
      by_cases hk : k = i.name
      · subst hk
        rw [mapLookup_mapInsert_self]
        rfl
      · rw [mapLookup_mapInsert_ne _ _ _ _ hk]
        exact h

theorem mem_seedAll_isSome (l : List InterfaceData) (m : HistMap) :
    ∀ i ∈ l,
      (mapLookup i.name (l.foldl (fun m i => mapInsert i.name [] m) m)).isSome = true := by
  induction l generalizing m with
  | nil => intro i h; cases h
  | cons j rest ih =>
      intro i hi
      rcases List.mem_cons.mp hi with h | h
      · subst h
        rw [List.foldl_cons]
        apply isSome_mapLookup_seedAll
        rw [mapLookup_mapInsert_self]
        rfl
      · rw [List.foldl_cons]
        exact ih (mapInsert j.name [] m) i h

/-! ## Invariant lemmas for the update loop -/

theorem isSome_graphs_update (app : App) (a : Action) (k : String)
    (h : (mapLookup k app.net_interface_graphs).isSome = true) :
    (mapLookup k (update app a).net_interface_graphs).isSome = true := by
  cases a with
  | quit => exact h
  | noop => exact h
  | tick => exact isSome_mapLookup_pushAll k _ _ h

theorem isSome_graphs_foldl (app : App) (acts : List Action) (k : String)
    (h : (mapLookup k app.net_interface_graphs).isSome = true) :
    (mapLookup k (acts.foldl update app).net_interface_graphs).isSome = true := by
  induction acts generalizing app with
  | nil => exact h
  | cons a rest ih =>
      rw [List.foldl_cons]
      exact ih (update app a) (isSome_graphs_update app a k h)

theorem inv_update (app : App) (a : Action)
    (h : ∀ i ∈ app.net_interfaces,
        (mapLookup i.name app.net_interface_graphs).isSome = true) :
    ∀ i ∈ (update app a).net_interfaces,
      (mapLookup i.name (update app a).net_interface_graphs).isSome = true := by
  cases a with
  | quit => exact h
  | noop => exact h
  | tick => exact mem_pushAll_isSome _ _

theorem inv_foldl (app : App) (acts : List Action)
    (h : ∀ i ∈ app.net_interfaces,
        (mapLookup i.name app.net_interface_graphs).isSome = true) :
    ∀ i ∈ (acts.foldl update app).net_interfaces,
      (mapLookup i.name (acts.foldl update app).net_interface_graphs).isSome = true := by
  induction acts generalizing app with
  | nil => exact h
  | cons a rest ih =>
      rw [List.foldl_cons]
      exact ih (update app a) (inv_update app a h)

theorem inv_initApp (s : System) :
    ∀ i ∈ (initApp s).net_interfaces,
      (mapLookup i.name (initApp s).net_interface_graphs).isSome = true :=
  mem_seedAll_isSome _ _

/-! ## Lemmas about the view composer -/

theorem buildWidgets_ok (g : HistMap) (l : List InterfaceData)
    (h : ∀ i ∈ l, (mapLookup i.name g).isSome = true) :
    buildWidgets g l
      = .ok (l.map create_interface_paragraph,
             l.map (fun i => create_interface_graph i.name ((mapLookup i.name g).getD []))) := by
  induction l with
  | nil => rfl
  | cons i rest ih =>
      obtain ⟨d, hd⟩ := Option.isSome_iff_exists.mp (h i (List.mem_cons_self _ _))
      rw [List.map_cons, List.map_cons, buildWidgets, hd,
        ih (fun j hj => h j (List.mem_cons_of_mem _ hj))]
      simp [hd]

theorem buildWidgets_ok_shape (g : HistMap) (l : List InterfaceData) (ps : List Paragraph)
    (ss : List Sparkline) (h : buildWidgets g l = .ok (ps, ss)) :
    ps = l.map create_interface_paragraph
      ∧ ss.map (fun s => s.title) = l.map (fun i => i.name) := by
  induction l generalizing ps ss with
  | nil =>
      simp only [buildWidgets, Except.ok.injEq, Prod.mk.injEq] at h
      simp [← h.1, ← h.2]
  | cons i rest ih =>
      rw [buildWidgets] at h
      cases hl : mapLookup i.name g with
      | none => rw [hl] at h; exact Except.noConfusion h
      | some d =>
          rw [hl] at h
          cases hb : buildWidgets g rest with
          | error e => rw [hb] at h; exact Except.noConfusion h
          | ok pr =>
              obtain ⟨ps', ss'⟩ := pr
              rw [hb] at h
              simp only [Except.ok.injEq, Prod.mk.injEq] at h
              obtain ⟨hps', hss'⟩ := ih ps' ss' hb
              rw [← h.1, ← h.2, List.map_cons, List.map_cons, List.map_cons, hps', hss']
              exact ⟨rfl, rfl⟩

theorem calc_network_status_ok_shape (app : App) (rows : List RenderRow)
    (h : calc_network_status app = .ok rows) :
    rows.map (fun r => r.paragraph) = app.net_interfaces.map create_interface_paragraph
      ∧ rows.map (fun r => r.spark.title) = app.net_interfaces.map (fun i => i.name)
      ∧ rows.map (fun r => r.percentage)
          = List.replicate app.net_interfaces.length (100 / app.net_interfaces.length) := by
  unfold calc_network_status at h
  cases hw : to_network_stat_widgets app with
  | error e => rw [hw] at h; exact Except.noConfusion h
  | ok p =>
      obtain ⟨nd, nsp⟩ := p
      rw [hw] at h
      dsimp only at h
      by_cases hlen : nd.length = 0
      · rw [if_pos hlen] at h
        exact Except.noConfusion h
      · rw [if_neg hlen] at h
        simp only [Except.ok.injEq] at h
        obtain ⟨hps, hss⟩ := buildWidgets_ok_shape _ _ _ _ hw
        have hndlen : nd.length = app.net_interfaces.length := by
          rw [hps, List.length_map]
        have hsslen : nsp.length = app.net_interfaces.length := by
          rw [← List.length_map nsp (fun s => s.title), hss, List.length_map]
        subst h
        refine ⟨?_, ?_, ?_⟩
        · rw [List.map_map]
          have : ((fun r : RenderRow => r.paragraph) ∘
              (fun p : Paragraph × Sparkline =>
                RenderRow.mk (100 / nd.length) p.1 p.2)) = Prod.fst := rfl
          rw [this, List.map_fst_zip nd nsp (by rw [hndlen, hsslen])]
          exact hps
        · rw [List.map_map]
          have : ((fun r : RenderRow => r.spark.title) ∘
              (fun p : Paragraph × Sparkline =>
                RenderRow.mk (100 / nd.length) p.1 p.2))
              = (fun s : Sparkline => s.title) ∘ Prod.snd := rfl
          rw [this, ← List.map_map, List.map_snd_zip nd nsp (by rw [hndlen, hsslen])]
          exact hss
        · rw [List.map_map]
          have : ((fun r : RenderRow => r.percentage) ∘
              (fun p : Paragraph × Sparkline =>
                RenderRow.mk (100 / nd.length) p.1 p.2))
              = fun _ => 100 / nd.length := rfl
          rw [this, List.map_const', List.length_zip, hndlen, hsslen, min_self]

theorem calc_network_status_nil (app : App) (h : app.net_interfaces = []) :
    calc_network_status app = .error RenderError.divByZero := by
  obtain ⟨q, s, ni, g⟩ := app
  dsimp only at h
  subst h
  rfl

theorem zip_pointwise {α β γ : Type} (f : α → γ) (g : β → γ) :
    ∀ (A : List α) (B : List β), A.map f = B.map g → ∀ p ∈ A.zip B, f p.1 = g p.2 := by
  intro A
  induction A with
  | nil =>
      intro B h p hp
      exact absurd hp (List.not_mem_nil p)
  | cons a A' ih =>
      intro B h p hp
      cases B with
      | nil => exact absurd hp (List.not_mem_nil p)
      | cons b B' =>
          rw [List.map_cons, List.map_cons] at h
          injection h with h1 h2
          rw [List.zip_cons_cons] at hp
          rcases List.mem_cons.mp hp with hp | hp
          · rw [hp]
            exact h1
          · exact ih B' h2 p hp

/-! ## The claims -/

/-- C1: `update(state, Tick)` first refreshes the network counters, then
fully replaces the interface snapshot list with the currently-reported
interfaces, then for each snapshot appends that snapshot's per-tick `sent`
value to the history entry keyed by its name, creating a single-element
sequence when the entry is absent.  (Stated for states whose refreshed
report names each interface once, as the OS network map does.) -/
theorem update_tick_spec (app : App)
    (hnd : ((update app Action.tick).net_interfaces.map (fun i => i.name)).Nodup) :
    (update app Action.tick).sys = app.sys.refresh_networks
      ∧ (update app Action.tick).net_interfaces
          = app.sys.refresh_networks.current.map (fun p => InterfaceData.from p.1 p.2)
      ∧ ∀ i ∈ (update app Action.tick).net_interfaces,
          mapLookup i.name (update app Action.tick).net_interface_graphs
            = some ((mapLookup i.name app.net_interface_graphs).getD [] ++ [i.sent]) := by
  refine ⟨rfl, rfl, ?_⟩
  exact mapLookup_pushAll_nodup _ _ hnd

/-- C1 witness: from empty history, a tick whose refresh reports `eth0`
with `sent = 100` yields history `{"eth0" ↦ [100]}`, and a second tick
reporting `sent = 150` yields `{"eth0" ↦ [100, 150]}`. -/
theorem update_tick_spec_witness :
    ((update cApp1 Action.tick).net_interfaces.map (fun i => i.name)).Nodup
      ∧ (update cApp1 Action.tick).net_interface_graphs = [("eth0", [100])]
      ∧ (update (update cApp1 Action.tick) Action.tick).net_interface_graphs
          = [("eth0", [100, 150])]
      ∧ ∀ i ∈ (update cApp1 Action.tick).net_interfaces,
          mapLookup i.name (update cApp1 Action.tick).net_interface_graphs
            = some ((mapLookup i.name cApp1.net_interface_graphs).getD [] ++ [i.sent]) :=
  ⟨by decide, by decide, by decide, (update_tick_spec cApp1 (by decide)).2.2⟩

/-- C2: in every reachable state (startup seeding followed by any sequence
of `Quit`/`Tick`/`NoOp` updates), every name in the current snapshot list
has an entry in the history store. -/
theorem reachable_snapshot_names_have_history (s : System) (acts : List Action) :
    ∀ i ∈ (acts.foldl update (initApp s)).net_interfaces,
      (mapLookup i.name (acts.foldl update (initApp s)).net_interface_graphs).isSome
        = true :=
  inv_foldl (initApp s) acts (inv_initApp s)

/-- C2 witness: the invariant instantiated on a one-interface system after
a tick and a no-op. -/
theorem reachable_snapshot_names_have_history_witness :
    (mapLookup (InterfaceData.from "lo" nd100).name
      (([Action.tick, Action.noop].foldl update (initApp cSys2)).net_interface_graphs)).isSome
      = true :=
  reachable_snapshot_names_have_history cSys2 [Action.tick, Action.noop]
    (InterfaceData.from "lo" nd100) (by decide)

/-- C3 counterexample: on `cApp3` the history map iterates in the order
`["eth1", "eth0"]`, yet the sparkline widgets come out in snapshot-list
order `["eth0", "eth1"]` — each looked up by name and paired with the text
block of the same interface — so the sparkline blocks are NOT ordered by
the history store's map-iteration order as the claim states. -/
theorem sparkline_order_counterexample :
    cApp3.net_interface_graphs.map (fun p => p.1) = ["eth1", "eth0"]
      ∧ cApp3.net_interfaces.map (fun i => i.name) = ["eth0", "eth1"]
      ∧ to_network_stat_widgets cApp3
          = .ok ([create_interface_paragraph iface0, create_interface_paragraph iface1],
                 [⟨"eth0", [1]⟩, ⟨"eth1", [3]⟩]) :=
  ⟨rfl, rfl, rfl⟩

/-- C3 (amended): both the text blocks and the sparkline blocks are
ordered by the interface snapshot list's order — each sparkline is
obtained by a name-keyed lookup while iterating the snapshot list — so
the positional (zipped) pairing always puts the text block and sparkline
of the same interface in the same row, whatever the history store's
iteration order. -/
theorem pairing_by_name (app : App) (rows : List RenderRow)
    (h : calc_network_status app = .ok rows) :
    rows.map (fun r => r.spark.title) = app.net_interfaces.map (fun i => i.name)
      ∧ rows.map (fun r => r.paragraph) = app.net_interfaces.map create_interface_paragraph
      ∧ ∀ r ∈ rows, r.paragraph.lines.headI = "Interface: " ++ r.spark.title := by
  obtain ⟨hps, hss, -⟩ := calc_network_status_ok_shape app rows h
  refine ⟨hss, hps, ?_⟩
  have e1 : rows.map (fun r => r.paragraph.lines.headI)
      = (rows.map (fun r => r.paragraph)).map (fun p => p.lines.headI) := by
    rw [List.map_map]
    rfl
  have e2 : rows.map (fun r => "Interface: " ++ r.spark.title)
      = (rows.map (fun r => r.spark.title)).map (fun t => "Interface: " ++ t) := by
    rw [List.map_map]
    rfl
  have h3 : rows.map (fun r => r.paragraph.lines.headI)
      = rows.map (fun r => "Interface: " ++ r.spark.title) := by
    rw [e1, e2, hps, hss, List.map_map, List.map_map]
    rfl
  exact List.map_eq_map_iff.mp h3

/-- C3 witness for the amended statement, on the state of the
counterexample. -/
theorem pairing_by_name_witness :
    calc_network_status cApp3 = .ok cRows3
      ∧ cRows3.map (fun r => r.spark.title) = cApp3.net_interfaces.map (fun i => i.name) :=
  ⟨rfl, (pairing_by_name cApp3 cRows3 rfl).1⟩

/-- C4: whenever the view composer renders, it produces one row per
current interface snapshot, and the row's text block has exactly four
lines: the interface name; the current-tick sent and received bytes; the
cumulative sent and received bytes; and the hardware address. -/
theorem render_four_line_text_blocks (app : App) (rows : List RenderRow)
    (h : calc_network_status app = .ok rows) :
    rows.length = app.net_interfaces.length
      ∧ ∀ p ∈ rows.zip app.net_interfaces,
          p.1.paragraph.lines
            = [ "Interface: " ++ p.2.name
              , "Sent/Recieved: " ++ toString p.2.sent ++ " / " ++ toString p.2.recd
              , "Total Send/Recieved " ++ toString p.2.sent_total ++ " / "
                  ++ toString p.2.rec_total
              , "Mac Address " ++ p.2.mac ]
            ∧ p.1.paragraph.lines.length = 4 := by
  obtain ⟨hps, -, -⟩ := calc_network_status_ok_shape app rows h
  have hlen : rows.length = app.net_interfaces.length := by
    rw [← List.length_map rows (fun r => r.paragraph), hps, List.length_map]
  refine ⟨hlen, ?_⟩
  have hmap : rows.map (fun r => r.paragraph.lines)
      = app.net_interfaces.map (fun i =>
          [ "Interface: " ++ i.name
          , "Sent/Recieved: " ++ toString i.sent ++ " / " ++ toString i.recd
          , "Total Send/Recieved " ++ toString i.sent_total ++ " / "
              ++ toString i.rec_total
          , "Mac Address " ++ i.mac ]) := by
    have e1 : rows.map (fun r => r.paragraph.lines)
        = (rows.map (fun r => r.paragraph)).map (fun p => p.lines) := by
      rw [List.map_map]
      rfl
    rw [e1, hps, List.map_map]
    rfl
  intro p hp
  have hlines := zip_pointwise _ _ rows app.net_interfaces hmap p hp
  refine ⟨hlines, ?_⟩
  rw [hlines]
  rfl

/-- C4 witness: the four-line text blocks on a concrete two-interface
state. -/
theorem render_four_line_text_blocks_witness :
    calc_network_status cApp3 = .ok cRows3
      ∧ cRows3.length = cApp3.net_interfaces.length
      ∧ ∀ p ∈ cRows3.zip cApp3.net_interfaces, p.1.paragraph.lines.length = 4 :=
  ⟨rfl, (render_four_line_text_blocks cApp3 cRows3 rfl).1,
   fun p hp => ((render_four_line_text_blocks cApp3 cRows3 rfl).2 p hp).2⟩

/-- C5: history entries are never removed by any sequence of updates; on a
tick whose refreshed snapshot list does not contain an interface name, the
history entry of that name is left exactly as it was (in particular with
its length unchanged), and the update is a total function (no error). -/
theorem history_entries_never_removed :
    (∀ (app : App) (acts : List Action) (k : String),
        (mapLookup k app.net_interface_graphs).isSome = true →
        (mapLookup k (acts.foldl update app).net_interface_graphs).isSome = true)
      ∧ ∀ (app : App) (k : String) (l : List Nat),
          mapLookup k app.net_interface_graphs = some l →
          (∀ i ∈ (update app Action.tick).net_interfaces, i.name ≠ k) →
          mapLookup k (update app Action.tick).net_interface_graphs = some l := by
  constructor
  · intro app acts k h
    exact isSome_graphs_foldl app acts k h
  · intro app k l hl habs
    exact (mapLookup_pushAll_not_mem k (update app Action.tick).net_interfaces
      app.net_interface_graphs habs).trans hl

/-- C5 witness: a tick that drops `lo` from the snapshot leaves the stale
`lo` entry `[5]` untouched. -/
theorem history_entries_never_removed_witness :
    (mapLookup "lo" (([Action.tick].foldl update cApp5).net_interface_graphs)).isSome
        = true
      ∧ mapLookup "lo" (update cApp5 Action.tick).net_interface_graphs = some [5] :=
  ⟨history_entries_never_removed.1 cApp5 [Action.tick] "lo" (by decide),
   history_entries_never_removed.2 cApp5 "lo" [5] (by decide) (by decide)⟩

/-- C6: `update(state, Quit)` sets the termination flag and changes
nothing else (metrics handle, snapshot list and history store are
untouched), and applying `Quit` twice equals applying it once. -/
theorem update_quit_idempotent_no_other_effect (app : App) :
    (update app Action.quit).should_quit = true
      ∧ (update app Action.quit).sys = app.sys
      ∧ (update app Action.quit).net_interfaces = app.net_interfaces
      ∧ (update app Action.quit).net_interface_graphs = app.net_interface_graphs
      ∧ update (update app Action.quit) Action.quit = update app Action.quit :=
  ⟨rfl, rfl, rfl, rfl, rfl⟩

/-- C7: the action resolver is a total function of the poll outcome: a
key event with code `'q'` yields `Quit`, a key event with any other code
yields `NoOp` (the source's `Action::None`), and a timed-out wait yields
`Tick`. -/
theorem get_action_total_resolution :
    get_action PollResult.timeout = Action.tick
      ∧ get_action (PollResult.event (TermEvent.key (KeyCode.char 'q'))) = Action.quit
      ∧ ∀ c : KeyCode, c ≠ KeyCode.char 'q' →
          get_action (PollResult.event (TermEvent.key c)) = Action.noop := by
  refine ⟨rfl, by decide, ?_⟩
  intro c hc
  cases c with
  | other => rfl
  | char ch =>
      have hch : ch ≠ 'q' := fun h => hc (by rw [h])
      simp [get_action, hch]

/-- C7 witness: the `'x'` key resolves to `NoOp`. -/
theorem get_action_total_resolution_witness :
    KeyCode.char 'x' ≠ KeyCode.char 'q'
      ∧ get_action (PollResult.event (TermEvent.key (KeyCode.char 'x'))) = Action.noop :=
  ⟨by decide, get_action_total_resolution.2.2 (KeyCode.char 'x') (by decide)⟩

/-- C8: with an empty snapshot list (hence an empty widget list) the
render path computes `100 / 0` and fails — the division is unguarded, so
rendering is a fatal error rather than an empty frame. -/
theorem empty_interfaces_render_div_by_zero (app : App)
    (h : app.net_interfaces = []) :
    calc_network_status app = .error RenderError.divByZero :=
  calc_network_status_nil app h

/-- C8 witness: the zero-interface state crashes the render. -/
theorem empty_interfaces_render_div_by_zero_witness :
    cApp8.net_interfaces = ([] : List InterfaceData)
      ∧ calc_network_status cApp8 = .error RenderError.divByZero :=
  ⟨rfl, empty_interfaces_render_div_by_zero cApp8 rfl⟩

/-- C9: whenever rendering succeeds the number of interfaces is positive
and every row's height percentage is the integer-division truncation
`100 / N`, `N` the number of rendered blocks (one per interface). -/
theorem row_percentage_truncated (app : App) (rows : List RenderRow)
    (h : calc_network_status app = .ok rows) :
    0 < app.net_interfaces.length
      ∧ rows.map (fun r => r.percentage)
          = List.replicate app.net_interfaces.length (100 / app.net_interfaces.length) := by
  obtain ⟨-, -, hp⟩ := calc_network_status_ok_shape app rows h
  refine ⟨?_, hp⟩
  rcases Nat.eq_zero_or_pos app.net_interfaces.length with hz | hpos
  · rw [calc_network_status_nil app (List.length_eq_zero.mp hz)] at h
    exact Except.noConfusion h
  · exact hpos

/-- C9 witness: three interfaces yield `33` percent per row
(`100 / 3 = 33`). -/
theorem row_percentage_truncated_witness :
    calc_network_status cApp9 = .ok cRows9
      ∧ cRows9.map (fun r => r.percentage)
          = List.replicate cApp9.net_interfaces.length (100 / cApp9.net_interfaces.length)
      ∧ cRows9.map (fun r => r.percentage) = [33, 33, 33] :=
  ⟨rfl, (row_percentage_truncated cApp9 cRows9 rfl).2, rfl⟩

/-- C10: on any state satisfying the reachable-state invariant (every
snapshot name has a history entry), the widget builder's by-name lookup
always succeeds, so its `unwrap` never panics and the function totally
returns its widget lists. -/
theorem widgets_total_on_invariant (app : App)
    (h : ∀ i ∈ app.net_interfaces,
        (mapLookup i.name app.net_interface_graphs).isSome = true) :
    ∃ ps ss, to_network_stat_widgets app = .ok (ps, ss) :=
  ⟨_, _, buildWidgets_ok app.net_interface_graphs app.net_interfaces h⟩

/-- C10 witness: the invariant holds on `cApp10` and the widget builder
succeeds there. -/
theorem widgets_total_on_invariant_witness :
    (∀ i ∈ cApp10.net_interfaces,
        (mapLookup i.name cApp10.net_interface_graphs).isSome = true)
      ∧ ∃ ps ss, to_network_stat_widgets cApp10 = .ok (ps, ss) :=
  ⟨by decide, widgets_total_on_invariant cApp10 (by decide)⟩

end NetStat
